import Mathlib

/-!
Verification of the bulk batch-operation orchestrator with rollback history
(rank-optim repository).

Shallow embedding of:
  - src/lib/universal-history.ts
    (UniversalHistoryManager: createEntry, createBulkOperation, saveEntry,
     getFilteredEntries, rollbackOperation, executeRollback, executeApiRollback,
     executeBatchRollback, executeFileRollback, importHistory),
  - src/components/bulk-discount-system.tsx (applyDiscount: batching loop,
    per-item outcome handling, tallies, history creation),
  - src/components/bulk-price-edit-modal.tsx (calculateNewPrice).

Modelling conventions:
  - localStorage is modelled as the in-memory list of entries held in an
    HState record; the JSON round trip through localStorage is identity here.
    The try/catch around localStorage.setItem (StorageError: entry silently
    dropped on quota failure) is not modelled; all writes succeed.
  - id generation (Date.now() plus Math.random base-36 suffix) is modelled by
    a deterministic tick counter.  The string prefixes from the source are
    preserved: entry ids are "hist_" ++ tick, batch ids are "batch_" ++ tick,
    as in the source they are "hist_..." and "batch_...".  Timestamps
    (new Date().toISOString()) are abstracted as "ts_" ++ tick.
  - network calls (fetch) are modelled as oracle function parameters.
  - JSON.parse is modelled as an oracle parameter returning Except; JSON
    values are the Json inductive below.  JS object literals are association
    lists in which a later key shadows an earlier one, matching object spread.
  - JS number arithmetic in calculateNewPrice is modelled exactly over ℚ;
    Number.toFixed(2) output formatting is not modelled (the theorems are
    about the numeric value that is formatted).
  - JS truthiness of strings (empty string is falsy, so a || b falls through
    to b when a is "" or undefined) is modelled by truthyStr / orFalsy.
-/

/-- JSON-like values, for the untyped payloads of the source
    (oldValues / newValues / rollbackPayload, and imported history data).
    Objects are association lists; a later key shadows an earlier one, as with
    JS object spread. -/
inductive Json where
  | null : Json
  | bool (b : Bool) : Json
  | num (n : ℚ) : Json
  | str (s : String) : Json
  | arr (elems : List Json) : Json
  | obj (fields : List (String × Json)) : Json

/-- The operationType union of UniversalHistoryEntry
    (src/lib/universal-history.ts lines 5-13). -/
inductive OperationType where
  | product_create | product_update | product_delete | bulk_upload
  | bulk_price_update | bulk_discount | image_upload | collection_update
deriving DecidableEq

/-- String form of an operationType, as it appears in the TS string union. -/
def OperationType.toName : OperationType → String
  | .product_create => "product_create"
  | .product_update => "product_update"
  | .product_delete => "product_delete"
  | .bulk_upload => "bulk_upload"
  | .bulk_price_update => "bulk_price_update"
  | .bulk_discount => "bulk_discount"
  | .image_upload => "image_upload"
  | .collection_update => "collection_update"

/-- The category union (line 14). -/
inductive Category where
  | product | pricing | images | bulk | collections
deriving DecidableEq

/-- The status union (line 23). -/
inductive EntryStatus where
  | success | error | warning | pending
deriving DecidableEq

/-- The rollbackType union (line 38). -/
inductive RollbackType where
  | api_call | batch_operation | file_restore
deriving DecidableEq

/-- rollbackData of a history entry (lines 36-41). -/
structure RollbackData where
  canRollback : Bool
  rollbackType : RollbackType
  rollbackPayload : Option Json
  dependencies : Option (List String)

/-- metadata.bulkOperationSummary (lines 56-61). -/
structure BulkOperationSummary where
  totalItems : Nat
  successfulItems : Nat
  failedItems : Nat
  operationType : String
deriving DecidableEq

/-- metadata of a history entry (lines 49-62).  originalEntryId is the extra
    key added by the spread in rollbackOperation (line 333). -/
structure EntryMetadata where
  duration : Option Nat
  errorDetails : Option String
  affectedProducts : Option (List String)
  affectedVariants : Option (List String)
  fileNames : Option (List String)
  imageUrls : Option (List String)
  bulkOperationSummary : Option BulkOperationSummary
  originalEntryId : Option String

/-- operationData of a history entry (lines 26-33). -/
structure OperationData where
  action : String
  oldValues : Option Json
  newValues : Option Json
  affectedCount : Option Nat
  batchId : Option String
  parentBatchId : Option String

/-- UniversalHistoryEntry (lines 2-63). -/
structure UniversalHistoryEntry where
  id : String
  timestamp : String
  operationType : OperationType
  category : Category
  productId : Option String
  productTitle : Option String
  variantId : Option String
  variantTitle : Option String
  sku : Option String
  collectionId : Option String
  collectionTitle : Option String
  description : String
  status : EntryStatus
  operationData : OperationData
  rollbackData : Option RollbackData
  userAgent : Option String
  ipAddress : Option String
  sessionId : Option String
  metadata : Option EntryMetadata

/-- Omit of UniversalHistoryEntry without id and timestamp: the argument type
    of createEntry (line 90). -/
structure EntryInput where
  operationType : OperationType
  category : Category
  productId : Option String
  productTitle : Option String
  variantId : Option String
  variantTitle : Option String
  sku : Option String
  collectionId : Option String
  collectionTitle : Option String
  description : String
  status : EntryStatus
  operationData : OperationData
  rollbackData : Option RollbackData
  userAgent : Option String
  ipAddress : Option String
  sessionId : Option String
  metadata : Option EntryMetadata

/-- RollbackResult (lines 78-83). -/
structure RollbackResult where
  success : Bool
  message : String
  affectedEntries : List String
  errors : Option (List String)
deriving DecidableEq

/-- MAX_ENTRIES of UniversalHistoryManager (line 87). -/
def MAX_ENTRIES : Nat := 5000

/-- The state of the history manager: the entry list persisted under
    STORAGE_KEY (most recent first) and the deterministic tick standing in for
    Date.now / Math.random in id and timestamp generation. -/
structure HState where
  entries : List UniversalHistoryEntry
  tick : Nat

/-- JS string truthiness: undefined and the empty string are falsy. -/
def truthyStr : Option String → Option String
  | some s => if s = "" then none else some s
  | none => none

/-- JS a || b for an optional string a and a string default b. -/
def orFalsy (a : Option String) (b : String) : String :=
  match truthyStr a with
  | some s => s
  | none => b

/-- saveEntry (lines 186-198): unshift the new entry and keep only the first
    MAX_ENTRIES entries. -/
def saveEntry (entry : UniversalHistoryEntry) (entries : List UniversalHistoryEntry) :
    List UniversalHistoryEntry :=
  (entry :: entries).take MAX_ENTRIES

/-- Assembling the full entry from an id, a timestamp and the rest of the
    fields, as in the object literal of createEntry (lines 91-95). -/
def mkEntry (id timestamp : String) (p : EntryInput) : UniversalHistoryEntry :=
  { id := id
    timestamp := timestamp
    operationType := p.operationType
    category := p.category
    productId := p.productId
    productTitle := p.productTitle
    variantId := p.variantId
    variantTitle := p.variantTitle
    sku := p.sku
    collectionId := p.collectionId
    collectionTitle := p.collectionTitle
    description := p.description
    status := p.status
    operationData := p.operationData
    rollbackData := p.rollbackData
    userAgent := p.userAgent
    ipAddress := p.ipAddress
    sessionId := p.sessionId
    metadata := p.metadata }

/-- createEntry (lines 90-99): generate id and timestamp, save, return the
    entry.  The source id is hist_ followed by time and randomness; here
    hist_ followed by the tick. -/
def createEntry (p : EntryInput) (s : HState) : UniversalHistoryEntry × HState :=
  let e := mkEntry ("hist_" ++ toString s.tick) ("ts_" ++ toString s.tick) p
  (e, { entries := saveEntry e s.entries, tick := s.tick + 1 })

/-- One element of the affectedItems argument of createBulkOperation
    (lines 106-114). -/
structure AffectedItem where
  productId : String
  productTitle : String
  variantId : Option String
  variantTitle : Option String
  sku : Option String
  oldValues : Json
  newValues : Json

/-- Fields of a JSON object, empty for every other JSON value; used to model
    object spread of an untyped value. -/
def jsonObjFields : Json → List (String × Json)
  | .obj fields => fields
  | _ => []

/-- The child rollbackPayload object literal of createBulkOperation
    (lines 173-176): an id key (variantId || productId) followed by the spread
    of oldValues. -/
def childRollbackPayload (item : AffectedItem) : Json :=
  .obj (("id", .str (orFalsy item.variantId item.productId)) :: jsonObjFields item.oldValues)

/-- The description of a child entry (line 161): description, colon, product
    title, and the variant title when truthy. -/
def childDescription (description : String) (item : AffectedItem) : String :=
  description ++ ": " ++ item.productTitle ++
    (match truthyStr item.variantTitle with
     | some t => " - " ++ t
     | none => "")

/-- The createEntry argument for one individual item of a bulk operation
    (lines 153-178). -/
def childEntryInput (opType : OperationType) (cat : Category) (description batchId : String)
    (item : AffectedItem) : EntryInput :=
  { operationType := opType
    category := cat
    productId := some item.productId
    productTitle := some item.productTitle
    variantId := item.variantId
    variantTitle := item.variantTitle
    sku := item.sku
    collectionId := none
    collectionTitle := none
    description := childDescription description item
    status := .success
    operationData :=
      { action := "individual_item_in_bulk"
        oldValues := some item.oldValues
        newValues := some item.newValues
        affectedCount := none
        batchId := some batchId
        parentBatchId := some batchId }
    rollbackData := some
      { canRollback := true
        rollbackType := .api_call
        rollbackPayload := some (childRollbackPayload item)
        dependencies := none }
    userAgent := none
    ipAddress := none
    sessionId := none
    metadata := none }

/-- The createEntry argument for the main (aggregate) entry of a bulk
    operation (lines 121-148). -/
def mainEntryInput (opType : OperationType) (cat : Category) (description batchId : String)
    (items : List AffectedItem) (rollbackPayload : Option Json) : EntryInput :=
  { operationType := opType
    category := cat
    productId := none
    productTitle := none
    variantId := none
    variantTitle := none
    sku := none
    collectionId := none
    collectionTitle := none
    description := description ++ " (" ++ toString items.length ++ " items)"
    status := .success
    operationData :=
      { action := "bulk_operation"
        oldValues := none
        newValues := none
        affectedCount := some items.length
        batchId := some batchId
        parentBatchId := none }
    rollbackData :=
      match rollbackPayload with
      | some p => some
          { canRollback := true
            rollbackType := .batch_operation
            rollbackPayload := some p
            dependencies := none }
      | none => none
    userAgent := none
    ipAddress := none
    sessionId := none
    metadata := some
      { duration := none
        errorDetails := none
        affectedProducts := some (items.map (fun item => item.productId))
        affectedVariants := some (items.filterMap (fun item => truthyStr item.variantId))
        fileNames := none
        imageUrls := none
        bulkOperationSummary := some
          { totalItems := items.length
            successfulItems := items.length
            failedItems := 0
            operationType := opType.toName }
        originalEntryId := none } }

/-- The forEach loop of createBulkOperation over affectedItems
    (lines 152-180): one createEntry per item, pushed in order. -/
def createBulkOperationGo (opType : OperationType) (cat : Category)
    (description batchId : String) :
    List AffectedItem → HState → List UniversalHistoryEntry × HState
  | [], s => ([], s)
  | item :: rest, s =>
    let r1 := createEntry (childEntryInput opType cat description batchId item) s
    let r2 := createBulkOperationGo opType cat description batchId rest r1.2
    (r1.1 :: r2.1, r2.2)

/-- createBulkOperation (lines 102-183): generate a batch id, create the main
    aggregate entry, then one individual entry per affected item; return the
    batch id and all created entries (aggregate first). -/
def createBulkOperation (opType : OperationType) (cat : Category) (description : String)
    (items : List AffectedItem) (rollbackPayload : Option Json) (s : HState) :
    (String × List UniversalHistoryEntry) × HState :=
  let batchId := "batch_" ++ toString s.tick
  let r1 := createEntry (mainEntryInput opType cat description batchId items rollbackPayload) s
  let r2 := createBulkOperationGo opType cat description batchId items r1.2
  ((batchId, r1.1 :: r2.1), r2.2)

/-- getAllEntries (lines 201-209): read the stored list (the parse-failure
    fallback to the empty list is unreachable in the typed model). -/
def getAllEntries (s : HState) : List UniversalHistoryEntry :=
  s.entries

/-- HistoryFilter (lines 65-76).  The dateRange field is omitted: its check
    compares wall-clock Dates, which is outside this embedding, and no claim
    touches it. -/
structure HistoryFilter where
  category : Option Category
  operationType : Option OperationType
  status : Option EntryStatus
  productId : Option String
  searchTerm : Option String
  batchId : Option String

/-- Case-sensitive substring test over the character lists of two strings,
    modelling JS String.prototype.includes. -/
def strIncludes (s pattern : String) : Bool :=
  decide (pattern.data <:+: s.data)

/-- getFilteredEntries (lines 212-260): conjunctive filters applied in
    sequence.  The dateRange branch (lines 250-257) is omitted, see
    HistoryFilter. -/
def getFilteredEntries (filter : HistoryFilter) (s : HState) : List UniversalHistoryEntry :=
  let e0 := getAllEntries s
  let e1 := match filter.category with
    | some c => e0.filter (fun e => e.category == c)
    | none => e0
  let e2 := match filter.operationType with
    | some t => e1.filter (fun e => e.operationType == t)
    | none => e1
  let e3 := match filter.status with
    | some st => e2.filter (fun e => e.status == st)
    | none => e2
  let e4 := match filter.productId with
    | some pid => e3.filter (fun e =>
        e.productId == some pid ||
        (match e.metadata with
         | some m => match m.affectedProducts with
           | some ps => ps.contains pid
           | none => false
         | none => false))
    | none => e3
  let e5 := match filter.batchId with
    | some b => e4.filter (fun e =>
        e.operationData.batchId == some b || e.operationData.parentBatchId == some b)
    | none => e4
  match filter.searchTerm with
  | some t =>
    let term := t.toLower
    e5.filter (fun e =>
      strIncludes e.description.toLower term ||
      (match e.productTitle with
       | some pt => strIncludes pt.toLower term
       | none => false) ||
      (match e.sku with
       | some sk => strIncludes sk.toLower term
       | none => false))
  | none => e5

/-- getBulkOperationItems (lines 282-284): entries whose parentBatchId is the
    given batch id.  The argument is optional because executeBatchRollback
    passes entry.operationData.batchId which may be absent; JS then compares
    undefined with undefined, matching entries without a parentBatchId. -/
def getBulkOperationItems (batchId : Option String) (s : HState) :
    List UniversalHistoryEntry :=
  (getAllEntries s).filter (fun e => e.operationData.parentBatchId == batchId)

/-- executeApiRollback (lines 363-421).  fetchOk is the oracle for the
    response.ok flag of the inverse-mutation fetch; a false response makes the
    source throw, modelled as Except.error with the thrown message. -/
def executeApiRollback (fetchOk : UniversalHistoryEntry → Bool)
    (entry : UniversalHistoryEntry) : Except String RollbackResult :=
  match entry.operationType with
  | .product_update =>
    if fetchOk entry then
      .ok { success := true, message := "Product successfully rolled back"
            affectedEntries := [entry.id], errors := none }
    else .error "Failed to rollback product"
  | .bulk_price_update =>
    if fetchOk entry then
      .ok { success := true, message := "Bulk price update successfully rolled back"
            affectedEntries := [entry.id], errors := none }
    else .error "Failed to rollback bulk price update"
  | .bulk_discount =>
    if fetchOk entry then
      .ok { success := true, message := "Bulk discount successfully rolled back"
            affectedEntries := [entry.id], errors := none }
    else .error "Failed to rollback bulk discount"
  | t => .error ("Rollback not implemented for " ++ t.toName)

/-- The for loop of executeBatchRollback (lines 429-440), accumulating
    affected ids and error strings.  The string rendering of a caught
    non-Error value (error interpolation at line 438) is the message itself
    here, since all modelled throws carry a message. -/
def executeBatchRollbackGo (fetchOk : UniversalHistoryEntry → Bool) :
    List UniversalHistoryEntry → List String → List String → List String × List String
  | [], results, errors => (results, errors)
  | be :: rest, results, errors =>
    match executeApiRollback fetchOk be with
    | .ok r =>
      if r.success then
        executeBatchRollbackGo fetchOk rest (results ++ r.affectedEntries) errors
      else
        executeBatchRollbackGo fetchOk rest results
          (errors ++ ["Failed to rollback " ++ be.id ++ ": " ++ r.message])
    | .error msg =>
      executeBatchRollbackGo fetchOk rest results
        (errors ++ ["Error rolling back " ++ be.id ++ ": " ++ msg])

/-- executeBatchRollback (lines 424-448). -/
def executeBatchRollback (fetchOk : UniversalHistoryEntry → Bool) (s : HState)
    (entry : UniversalHistoryEntry) : Except String RollbackResult :=
  let batchEntries := getBulkOperationItems entry.operationData.batchId s
  let acc := executeBatchRollbackGo fetchOk batchEntries [] []
  .ok { success := acc.2.isEmpty
        message := "Rolled back " ++ toString acc.1.length ++ " operations" ++
          (if acc.2.isEmpty then "" else " with " ++ toString acc.2.length ++ " errors")
        affectedEntries := acc.1
        errors := if acc.2.isEmpty then none else some acc.2 }

/-- executeFileRollback (lines 451-454): always throws. -/
def executeFileRollback : Except String RollbackResult :=
  .error "File rollback not yet implemented"

/-- executeRollback (lines 349-360): dispatch on rollbackType; an absent
    rollbackData falls into the default branch and throws. -/
def executeRollback (fetchOk : UniversalHistoryEntry → Bool) (s : HState)
    (entry : UniversalHistoryEntry) : Except String RollbackResult :=
  match entry.rollbackData with
  | some rd =>
    match rd.rollbackType with
    | .api_call => executeApiRollback fetchOk entry
    | .batch_operation => executeBatchRollback fetchOk s entry
    | .file_restore => executeFileRollback
  | none => .error "Unknown rollback type"

/-- Metadata with every field absent, the result of spreading an undefined
    metadata object. -/
def emptyMetadata : EntryMetadata :=
  { duration := none, errorDetails := none, affectedProducts := none
    affectedVariants := none, fileNames := none, imageUrls := none
    bulkOperationSummary := none, originalEntryId := none }

/-- The createEntry argument of the rollback history entry created on a
    successful rollback (lines 311-335). -/
def rollbackEntryInput (entry : UniversalHistoryEntry) (entryId : String) : EntryInput :=
  { operationType := entry.operationType
    category := entry.category
    productId := entry.productId
    productTitle := entry.productTitle
    variantId := entry.variantId
    variantTitle := entry.variantTitle
    sku := entry.sku
    collectionId := none
    collectionTitle := none
    description := "Rolled back: " ++ entry.description
    status := .success
    operationData :=
      { action := "rollback"
        oldValues := entry.operationData.newValues
        newValues := entry.operationData.oldValues
        affectedCount := none
        batchId := entry.operationData.batchId
        parentBatchId := none }
    rollbackData := some
      { canRollback := false
        rollbackType := .api_call
        rollbackPayload := none
        dependencies := none }
    userAgent := none
    ipAddress := none
    sessionId := none
    metadata := some
      { (match entry.metadata with
         | some m => m
         | none => emptyMetadata) with originalEntryId := some entryId } }

/-- rollbackOperation (lines 287-346): resolve the entry, fail fast when it is
    missing or not rollback-able, execute the rollback, and on success append
    a rollback history entry.  Every thrown error is caught and converted to a
    failure RollbackResult (lines 339-345), so the function is total. -/
def rollbackOperation (fetchOk : UniversalHistoryEntry → Bool) (entryId : String)
    (s : HState) : RollbackResult × HState :=
  match (getAllEntries s).find? (fun e => e.id == entryId) with
  | none =>
    ({ success := false, message := "History entry not found"
       affectedEntries := [], errors := none }, s)
  | some entry =>
    match entry.rollbackData with
    | none =>
      ({ success := false, message := "This operation cannot be rolled back"
         affectedEntries := [], errors := none }, s)
    | some rd =>
      if rd.canRollback then
        match executeRollback fetchOk s entry with
        | .ok result =>
          if result.success then
            (result, (createEntry (rollbackEntryInput entry entryId) s).2)
          else (result, s)
        | .error msg =>
          ({ success := false, message := msg, affectedEntries := [], errors := none }, s)
      else
        ({ success := false, message := "This operation cannot be rolled back"
           affectedEntries := [], errors := none }, s)

/-- importHistory (lines 468-480), at the storage level.  parse is the oracle
    for JSON.parse (Except.error for a parse exception); storage is the raw
    string under STORAGE_KEY.  When the parsed value is an array, the raw
    input string is stored verbatim; otherwise, parse failure included,
    storage is untouched and false is returned.  No element of the array is
    inspected (no per-entry shape validation) and nothing is trimmed. -/
def importHistory (parse : String → Except String Json) (jsonData : String)
    (storage : Option String) : Bool × Option String :=
  match parse jsonData with
  | .ok j =>
    match j with
    | .arr _ => (true, some jsonData)
    | _ => (false, storage)
  | .error _ => (false, storage)

/-- The type union of PriceRule (src/components/bulk-price-edit-modal.tsx
    line 58). -/
inductive RuleType where
  | percentage | fixed | absolute
deriving DecidableEq

/-- The roundingRule union (line 64); the string value "none" is the noChange
    constructor. -/
inductive RoundingRule where
  | noChange | nearest_99 | nearest_00 | nearest_95
deriving DecidableEq

/-- The applyTo union (line 60). -/
inductive ApplyTarget where
  | price | compareAtPrice | both
deriving DecidableEq

/-- PriceRule (lines 57-65).  roundingRule is an optional field in the source;
    an absent roundingRule behaves like noChange (no branch of the rounding
    if-chain matches). -/
structure PriceRule where
  type : RuleType
  value : ℚ
  applyTo : ApplyTarget
  minPrice : Option ℚ
  maxPrice : Option ℚ
  maintainMargin : Option Bool
  roundingRule : Option RoundingRule

/-- The action argument of calculateNewPrice (line 142). -/
inductive PriceAction where
  | increase | decrease
deriving DecidableEq

/-- JS Math.round: round half toward positive infinity. -/
def jsRound (q : ℚ) : ℤ := ⌊q + 1 / 2⌋

/-- The rule-application stage of calculateNewPrice (lines 148-155). -/
def calcRaw (price : ℚ) (rule : PriceRule) (action : PriceAction) : ℚ :=
  match rule.type with
  | .percentage =>
    let multiplier := match action with
      | .increase => 1 + rule.value / 100
      | .decrease => 1 - rule.value / 100
    price * multiplier
  | .fixed =>
    match action with
    | .increase => price + rule.value
    | .decrease => price - rule.value
  | .absolute => rule.value

/-- The minimum-price business rule of calculateNewPrice (lines 159-162):
    clamp to at least 0.01.  There is no maximum counterpart: the maximum
    price cap is removed in the source (lines 164-165). -/
def clampMin (x : ℚ) : ℚ := if x < 1 / 100 then 1 / 100 else x

/-- The rounding stage of calculateNewPrice (lines 169-176); an absent
    roundingRule and the "none" value both leave the input unchanged. -/
def applyRounding (rr : Option RoundingRule) (x : ℚ) : ℚ :=
  match rr with
  | some .nearest_99 => (⌊x⌋ : ℚ) + 99 / 100
  | some .nearest_00 => (jsRound x : ℚ)
  | some .nearest_95 => (⌊x⌋ : ℚ) + 95 / 100
  | _ => x

/-- calculateNewPrice (lines 142-181) over ℚ: apply the rule, clamp, then
    round.  The argument is the value of Number.parseFloat on the
    decimal-string input; the result is the numeric value the source hands to
    toFixed(2). -/
def calculateNewPrice (currentPrice : ℚ) (rule : PriceRule) (action : PriceAction) : ℚ :=
  applyRounding rule.roundingRule (clampMin (calcRaw currentPrice rule action))

/-- One element of the flattened allVariants list of the bulk discount system
    (src/components/bulk-discount-system.tsx lines 322-333): a product variant
    together with its product id and title. -/
structure VariantInfo where
  id : String
  title : String
  price : String
  compareAtPrice : Option String
  sku : String
  productId : String
  productTitle : String

/-- DiscountResult (lines 75-84). -/
structure DiscountResult where
  variantId : String
  productTitle : String
  variantTitle : String
  success : Bool
  error : Option String
  originalPrice : String
  newPrice : String
  compareAtPrice : String
deriving DecidableEq

/-- Outcome of the per-variant fetch of /api/apply-discount (lines 514-527):
    ok with a first result (response.ok, data.results non-empty), an API error
    (non-ok response or missing results, with the optional data.error string),
    or a thrown network error with its message. -/
inductive ApiOutcome where
  | ok (result : DiscountResult)
  | apiError (errMsg : Option String)
  | networkError (msg : String)

/-- The per-variant closure inside the batch map of applyDiscount
    (lines 508-565): call the API and convert every failure into a structured
    DiscountResult; the Bool used for the tally is result.success. -/
def processVariant (allVariants : List VariantInfo) (api : String → ApiOutcome)
    (variantId : String) : DiscountResult :=
  let variant := allVariants.find? (fun v => v.id == variantId)
  match api variantId with
  | .ok result => result
  | .apiError errMsg =>
    { variantId := variantId
      productTitle := orFalsy (variant.map (fun v => v.productTitle)) "Unknown Product"
      variantTitle := orFalsy (variant.map (fun v => v.title)) "Unknown Variant"
      success := false
      error := some (orFalsy errMsg "API request failed")
      originalPrice := orFalsy (variant.map (fun v => v.price)) "0.00"
      newPrice := "0.00"
      compareAtPrice := "0.00" }
  | .networkError msg =>
    { variantId := variantId
      productTitle := orFalsy (variant.map (fun v => v.productTitle)) "Unknown Product"
      variantTitle := orFalsy (variant.map (fun v => v.title)) "Unknown Variant"
      success := false
      error := some msg
      originalPrice := orFalsy (variant.map (fun v => v.price)) "0.00"
      newPrice := "0.00"
      compareAtPrice := "0.00" }

/-- The batch-building loop of applyDiscount (lines 490-495): slice the
    selected variants into consecutive groups of batchSize = 2. -/
def makeBatches : List String → List (List String)
  | [] => []
  | [a] => [[a]]
  | a :: b :: rest => [a, b] :: makeBatches rest

/-- One step of the orchestration trace of applyDiscount. -/
inductive SchedEvent where
  | group (items : List String)
  | delay (ms : Nat)
deriving DecidableEq

/-- The batch loop of applyDiscount (lines 498-598) as a trace: each group is
    dispatched concurrently and awaited in full (Promise.all, line 568), then
    a 1100 ms suspension runs between consecutive groups and not after the
    last one (lines 594-597). -/
def scheduleGroups : List (List String) → List SchedEvent
  | [] => []
  | [g] => [SchedEvent.group g]
  | g :: g2 :: gs => SchedEvent.group g :: SchedEvent.delay 1100 :: scheduleGroups (g2 :: gs)

/-- The orchestration trace of applyDiscount for a selection of variants. -/
def applyDiscountSchedule (selectedVariants : List String) : List SchedEvent :=
  scheduleGroups (makeBatches selectedVariants)

/-- The allResults accumulation of applyDiscount (lines 498-592): per-batch
    Promise.all results pushed in order. -/
def applyDiscountResults (allVariants : List VariantInfo) (api : String → ApiOutcome)
    (selectedVariants : List String) : List DiscountResult :=
  (makeBatches selectedVariants).flatMap
    (fun batch => batch.map (processVariant allVariants api))

/-- The running tally of applyDiscount (lines 571-592): successful and failed
    counters incremented per completed result. -/
def applyDiscountTally (results : List DiscountResult) : Nat × Nat :=
  results.foldl (fun t r => if r.success then (t.1 + 1, t.2) else (t.1, t.2 + 1)) (0, 0)

/-- The affectedItems mapping of applyDiscount (lines 610-630), applied to the
    successful results only. -/
def toAffectedItem (allVariants : List VariantInfo) (discountPercentage : ℚ)
    (result : DiscountResult) : AffectedItem :=
  let variant := allVariants.find? (fun v => v.id == result.variantId)
  { productId := orFalsy (variant.map (fun v => v.productId)) ""
    productTitle := result.productTitle
    variantId := some result.variantId
    variantTitle := some result.variantTitle
    sku := some (orFalsy (variant.map (fun v => v.sku)) "")
    oldValues := .obj
      [("price", .str result.originalPrice),
       ("compareAtPrice",
        match truthyStr (variant.bind (fun v => v.compareAtPrice)) with
        | some c => .str c
        | none => .null)]
    newValues := .obj
      [("price", .str result.newPrice),
       ("compareAtPrice", .str result.compareAtPrice),
       ("discountPercentage", .num discountPercentage)] }

/-- The history side of applyDiscount (lines 609-644): filter the successful
    results, map them to affected items, and when at least one exists call
    createBulkHistoryEntry, which forwards to createBulkOperation.  Returns
    the new history state and, when a bulk entry was created, the batch id and
    created entries. -/
def applyDiscountHistory (allVariants : List VariantInfo) (api : String → ApiOutcome)
    (discountPercentage : ℚ) (selectedVariants : List String) (expiryDate : Option String)
    (s : HState) : HState × Option (String × List UniversalHistoryEntry) :=
  let allResults := applyDiscountResults allVariants api selectedVariants
  let affectedItems := (allResults.filter (fun r => r.success)).map
    (toAffectedItem allVariants discountPercentage)
  if affectedItems.length > 0 then
    let payload : Json := .obj
      [("variantIds", .arr (selectedVariants.map .str)),
       ("originalDiscountPercentage", .num discountPercentage),
       ("expiryDate",
        match truthyStr expiryDate with
        | some d => .str d
        | none => .null)]
    let r := createBulkOperation .bulk_discount .pricing
      ("Bulk Discount Applied: " ++ toString discountPercentage ++ "% off")
      affectedItems (some payload) s
    (r.2, some r.1)
  else (s, none)

/-- The child (individual-item) history entries produced by one applyDiscount
    run: all entries after the aggregate one, or none when no bulk entry was
    created. -/
def applyDiscountChildEntries (allVariants : List VariantInfo) (api : String → ApiOutcome)
    (discountPercentage : ℚ) (selectedVariants : List String) (expiryDate : Option String)
    (s : HState) : List UniversalHistoryEntry :=
  match (applyDiscountHistory allVariants api discountPercentage selectedVariants
      expiryDate s).2 with
  | some r => r.2.drop 1
  | none => []

/-- A minimal history entry used by concrete test stores. -/
def baseEntry (id : String) : UniversalHistoryEntry :=
  { id := id
    timestamp := "ts"
    operationType := .product_update
    category := .product
    productId := none
    productTitle := none
    variantId := none
    variantTitle := none
    sku := none
    collectionId := none
    collectionTitle := none
    description := "d"
    status := .success
    operationData :=
      { action := "update", oldValues := none, newValues := none
        affectedCount := none, batchId := none, parentBatchId := none }
    rollbackData := none
    userAgent := none
    ipAddress := none
    sessionId := none
    metadata := none }

/-- A rollback-able product_update entry with recorded old and new values. -/
def rbEntry : UniversalHistoryEntry :=
  { baseEntry "e0" with
    operationData :=
      { action := "update", oldValues := some (.str "old"), newValues := some (.str "new")
        affectedCount := none, batchId := none, parentBatchId := none }
    rollbackData := some
      { canRollback := true, rollbackType := .api_call
        rollbackPayload := none, dependencies := none } }

/-- An entry whose rollbackData forbids rollback. -/
def nonRbEntry : UniversalHistoryEntry :=
  { baseEntry "e1" with
    rollbackData := some
      { canRollback := false, rollbackType := .api_call
        rollbackPayload := none, dependencies := none } }

/-- An entry marked rollback-able but with the unimplemented file_restore
    rollback type. -/
def frEntry : UniversalHistoryEntry :=
  { baseEntry "e2" with
    rollbackData := some
      { canRollback := true, rollbackType := .file_restore
        rollbackPayload := none, dependencies := none } }

/-- A history store filled to MAX_ENTRIES capacity: a rollback-able entry in
    front, 4998 filler entries, and a distinguished victim entry at the oldest
    position. -/
def bigStore : HState :=
  { entries := rbEntry :: (List.replicate 4998 (baseEntry "d") ++ [baseEntry "v"])
    tick := 0 }

/-- One concrete affected item. -/
def oneItem : AffectedItem :=
  { productId := "p1", productTitle := "P", variantId := some "v1"
    variantTitle := some "V", sku := some "S"
    oldValues := .obj [("price", .str "10.00")]
    newValues := .obj [("price", .str "9.00")] }

/-- A successful discount API result for a variant id. -/
def okResult (id : String) : DiscountResult :=
  { variantId := id, productTitle := "P", variantTitle := "T", success := true
    error := none, originalPrice := "10.00", newPrice := "9.00"
    compareAtPrice := "10.00" }

/-- A concrete variant record for the bulk discount fixtures. -/
def mkVariant (id : String) : VariantInfo :=
  { id := id, title := "T", price := "10.00", compareAtPrice := none
    sku := "S", productId := "p_" ++ id, productTitle := "P" }

/-- Five selected variants, for the batch of five of the partial-failure
    scenario. -/
def fiveVariants : List VariantInfo :=
  [mkVariant "v1", mkVariant "v2", mkVariant "v3", mkVariant "v4", mkVariant "v5"]

/-- An API oracle for which item 3 of 5 always fails and the others
    succeed. -/
def apiFailThird (id : String) : ApiOutcome :=
  if id == "v3" then .apiError none else .ok (okResult id)

/-- An API oracle for which every item succeeds. -/
def apiAllOk (id : String) : ApiOutcome := .ok (okResult id)

/-- A concrete JSON.parse oracle recognizing exactly the two strings used by
    the import witnesses. -/
def parseTwo (s : String) : Except String Json :=
  if s == "[1]" then .ok (.arr [.num 1])
  else if s == "0" then .ok (.num 0)
  else .error "unexpected token"

/-! ## Shared lemmas -/

/-- Taking n of a list whose trailing part was already cut at n cuts at the
    same place: repeated saveEntry trims compose into a single trim. -/
theorem take_append_take {α : Type} (n : Nat) (A B : List α) :
    (A ++ B.take n).take n = (A ++ B).take n := by
  rw [List.take_append_eq_append_take, List.take_append_eq_append_take,
    List.take_take, min_eq_left (Nat.sub_le n A.length)]

/-- A positive take of a cons peels the head. -/
theorem take_cons_of_pos {α : Type} {n : Nat} (h : 0 < n) (a : α) (l : List α) :
    (a :: l).take n = a :: l.take (n - 1) := by
  cases n with
  | zero => exact absurd h (by simp)
  | succ m => simp [List.take_succ_cons]

/-- The batches of applyDiscount concatenate back to the selected variants in
    their original order. -/
theorem makeBatches_flatten : ∀ (xs : List String), (makeBatches xs).flatten = xs
  | [] => rfl
  | [_] => rfl
  | a :: b :: rest => by
    simp only [makeBatches, List.flatten_cons, List.cons_append, List.nil_append]
    rw [makeBatches_flatten rest]

/-- applyDiscount issues ceil(N / 2) batches. -/
theorem makeBatches_length : ∀ (xs : List String),
    (makeBatches xs).length = (xs.length + 1) / 2
  | [] => rfl
  | [_] => by simp [makeBatches]
  | _ :: _ :: rest => by
    simp only [makeBatches, List.length_cons]
    rw [makeBatches_length rest]
    omega

/-- Every batch is nonempty and holds at most two items. -/
theorem makeBatches_mem_size : ∀ (xs : List String),
    ∀ g ∈ makeBatches xs, 0 < g.length ∧ g.length ≤ 2
  | [] => by intro g hg; simp [makeBatches] at hg
  | [a] => by
    intro g hg
    simp only [makeBatches, List.mem_singleton] at hg
    subst hg; simp
  | a :: b :: rest => by
    intro g hg
    simp only [makeBatches, List.mem_cons] at hg
    rcases hg with h | h
    · subst h; simp
    · exact makeBatches_mem_size rest g h

/-- Every batch except possibly the last holds exactly two items. -/
theorem makeBatches_dropLast : ∀ (xs : List String),
    ∀ g ∈ (makeBatches xs).dropLast, g.length = 2
  | [] => by intro g hg; simp [makeBatches] at hg
  | [a] => by intro g hg; simp [makeBatches] at hg
  | a :: b :: rest => by
    intro g hg
    rw [makeBatches] at hg
    cases hrest : makeBatches rest with
    | nil => rw [hrest] at hg; simp at hg
    | cons y ys =>
      rw [hrest, List.dropLast_cons₂] at hg
      rcases List.mem_cons.mp hg with h | h
      · subst h; rfl
      · exact makeBatches_dropLast rest g (by rw [hrest]; exact h)

/-- The schedule is the groups interspersed with single 1100 ms delays. -/
theorem scheduleGroups_eq_intersperse : ∀ (gs : List (List String)),
    scheduleGroups gs = List.intersperse (SchedEvent.delay 1100) (gs.map SchedEvent.group)
  | [] => rfl
  | [_] => rfl
  | g :: g2 :: gs => by
    simp only [scheduleGroups, List.map_cons]
    rw [List.intersperse_cons₂, ← List.map_cons]
    rw [scheduleGroups_eq_intersperse (g2 :: gs)]

/-! ## C2 -/

/-- C2: for every nonempty selection, applyDiscount partitions the selected
    variants in their original order into ceil(N/2) groups of size exactly 2
    except a possibly smaller (nonempty) final group, awaits each whole group
    (a group is one atomic SchedEvent.group of the trace), and suspends
    1100 ms exactly between consecutive groups and never after the last
    group (the trace is the groups interspersed with single delay events). -/
theorem applyDiscount_rate_discipline (items : List String) (_h : items ≠ []) :
    (makeBatches items).flatten = items ∧
    (makeBatches items).length = (items.length + 1) / 2 ∧
    (∀ g ∈ makeBatches items, 0 < g.length ∧ g.length ≤ 2) ∧
    (∀ g ∈ (makeBatches items).dropLast, g.length = 2) ∧
    applyDiscountSchedule items =
      List.intersperse (SchedEvent.delay 1100) ((makeBatches items).map SchedEvent.group) :=
  ⟨makeBatches_flatten items, makeBatches_length items, makeBatches_mem_size items,
    makeBatches_dropLast items, scheduleGroups_eq_intersperse (makeBatches items)⟩

/-- Witness for C2 at the concrete selection of three variants: two groups,
    one delay between them, none after the final singleton group. -/
theorem applyDiscount_rate_discipline_witness :
    (["a", "b", "c"] : List String) ≠ [] ∧
    ((makeBatches ["a", "b", "c"]).flatten = ["a", "b", "c"] ∧
     (makeBatches ["a", "b", "c"]).length = ((["a", "b", "c"] : List String).length + 1) / 2 ∧
     (∀ g ∈ makeBatches ["a", "b", "c"], 0 < g.length ∧ g.length ≤ 2) ∧
     (∀ g ∈ (makeBatches ["a", "b", "c"]).dropLast, g.length = 2) ∧
     applyDiscountSchedule ["a", "b", "c"] =
       List.intersperse (SchedEvent.delay 1100)
         ((makeBatches ["a", "b", "c"]).map SchedEvent.group)) ∧
    applyDiscountSchedule ["a", "b", "c"] =
      [SchedEvent.group ["a", "b"], SchedEvent.delay 1100, SchedEvent.group ["c"]] :=
  ⟨by decide, applyDiscount_rate_discipline ["a", "b", "c"] (by decide), by decide⟩

/-! ## C3 -/

/-- The clamp stage never returns less than 0.01. -/
theorem clampMin_ge (x : ℚ) : 1 / 100 ≤ clampMin x := by
  unfold clampMin
  split
  · exact le_refl _
  · exact le_of_not_lt (by assumption)

/-- Rounding a value that is at least 0.01 never produces a negative
    number. -/
theorem applyRounding_nonneg (rr : Option RoundingRule) (x : ℚ) (hx : 1 / 100 ≤ x) :
    0 ≤ applyRounding rr x := by
  have hx0 : (0 : ℚ) ≤ x := le_trans (by norm_num) hx
  have hfl : (0 : ℚ) ≤ (⌊x⌋ : ℚ) := by
    exact_mod_cast Int.floor_nonneg.mpr hx0
  have hrd : (0 : ℚ) ≤ (jsRound x : ℚ) := by
    have : (0 : ℤ) ≤ jsRound x := Int.floor_nonneg.mpr (by linarith)
    exact_mod_cast this
  have hrdZ : (0 : ℤ) ≤ jsRound x := Int.floor_nonneg.mpr (by linarith)
  rcases rr with _ | rr
  · simpa [applyRounding] using hx0
  · cases rr with
    | noChange => simpa [applyRounding] using hx0
    | nearest_99 => simp only [applyRounding]; linarith
    | nearest_00 => simp only [applyRounding]; exact_mod_cast hrdZ
    | nearest_95 => simp only [applyRounding]; linarith

/-- For every rounding rule other than nearest_00, rounding a value that is
    at least 0.01 stays at least 0.01. -/
theorem applyRounding_min (rr : Option RoundingRule) (x : ℚ) (hx : 1 / 100 ≤ x)
    (hne : rr ≠ some .nearest_00) : 1 / 100 ≤ applyRounding rr x := by
  have hx0 : (0 : ℚ) ≤ x := le_trans (by norm_num) hx
  have hfl : (0 : ℚ) ≤ (⌊x⌋ : ℚ) := by
    exact_mod_cast Int.floor_nonneg.mpr hx0
  rcases rr with _ | rr
  · simpa [applyRounding] using hx
  · cases rr
    · simpa [applyRounding] using hx
    · linarith [hfl, show applyRounding (some .nearest_99) x = (⌊x⌋ : ℚ) + 99 / 100 from rfl]
    · exact absurd rfl hne
    · linarith [hfl, show applyRounding (some .nearest_95) x = (⌊x⌋ : ℚ) + 95 / 100 from rfl]

/-- C3 (amended): for every positive input, any rule and either direction,
    the value after the rule stage is clamped to a minimum of 0.01 with no
    maximum counterpart and the rounding rule is applied after that clamp, so
    the result is never negative and is at least 0.01 for every rounding rule
    except nearest_00; under nearest_00, rounding after the clamp can drop the
    result to 0 (below the 0.01 floor), see the counterexample. -/
theorem calculateNewPrice_floor_clamp (currentPrice : ℚ) (rule : PriceRule)
    (action : PriceAction) (_h : 0 < currentPrice) :
    calculateNewPrice currentPrice rule action =
      applyRounding rule.roundingRule (clampMin (calcRaw currentPrice rule action)) ∧
    1 / 100 ≤ clampMin (calcRaw currentPrice rule action) ∧
    0 ≤ calculateNewPrice currentPrice rule action ∧
    (rule.roundingRule ≠ some .nearest_00 →
      1 / 100 ≤ calculateNewPrice currentPrice rule action) :=
  ⟨rfl, clampMin_ge _,
    applyRounding_nonneg _ _ (clampMin_ge _),
    fun hne => applyRounding_min _ _ (clampMin_ge _) hne⟩

/-- Witness for C3 at the spec's own example: price 0.05, fixed decrease by
    10 with no rounding is clamped to exactly 0.01. -/
theorem calculateNewPrice_floor_clamp_witness :
    (0 : ℚ) < 5 / 100 ∧
    (some RoundingRule.noChange ≠ some RoundingRule.nearest_00) ∧
    (0 ≤ calculateNewPrice (5 / 100)
        { type := .fixed, value := 10, applyTo := .price, minPrice := none
          maxPrice := none, maintainMargin := none
          roundingRule := some .noChange } .decrease ∧
      1 / 100 ≤ calculateNewPrice (5 / 100)
        { type := .fixed, value := 10, applyTo := .price, minPrice := none
          maxPrice := none, maintainMargin := none
          roundingRule := some .noChange } .decrease) ∧
    calculateNewPrice (5 / 100)
        { type := .fixed, value := 10, applyTo := .price, minPrice := none
          maxPrice := none, maintainMargin := none
          roundingRule := some .noChange } .decrease = 1 / 100 := by
  refine ⟨by norm_num, by simp, ⟨?_, ?_⟩, ?_⟩
  · exact (calculateNewPrice_floor_clamp (5 / 100) _ .decrease (by norm_num)).2.2.1
  · exact (calculateNewPrice_floor_clamp (5 / 100) _ .decrease (by norm_num)).2.2.2 (by simp)
  · unfold calculateNewPrice applyRounding clampMin calcRaw
    norm_num

/-- Counterexample for C3: with rounding rule nearest_00, price 0.05 and a
    fixed decrease of 10 the clamp yields 0.01 but Math.round then produces
    0, strictly below the claimed 0.01 minimum, because rounding runs after
    the clamp. -/
theorem calculateNewPrice_below_min :
    calculateNewPrice (5 / 100)
      { type := .fixed, value := 10, applyTo := .price, minPrice := none
        maxPrice := none, maintainMargin := none
        roundingRule := some .nearest_00 } .decrease = 0 ∧
    calculateNewPrice (5 / 100)
      { type := .fixed, value := 10, applyTo := .price, minPrice := none
        maxPrice := none, maintainMargin := none
        roundingRule := some .nearest_00 } .decrease < 1 / 100 := by
  have h : calculateNewPrice (5 / 100)
      { type := .fixed, value := 10, applyTo := .price, minPrice := none
        maxPrice := none, maintainMargin := none
        roundingRule := some .nearest_00 } .decrease = 0 := by
    simp only [calculateNewPrice, applyRounding, clampMin, calcRaw, jsRound]
    rw [if_pos (by norm_num : (5 / 100 - 10 : ℚ) < 1 / 100)]
    rw [show (1 : ℚ) / 100 + 1 / 2 = 51 / 100 by norm_num]
    norm_num [Int.floor_eq_zero_iff, Set.mem_Ico]
  exact ⟨h, by rw [h]; norm_num⟩

/-! ## createBulkOperation lemmas -/

/-- The forEach loop creates exactly one entry per affected item. -/
theorem createBulkOperationGo_length (ot : OperationType) (cat : Category) (d b : String) :
    ∀ (items : List AffectedItem) (s : HState),
      (createBulkOperationGo ot cat d b items s).1.length = items.length
  | [], _ => rfl
  | item :: rest, s => by
    simp only [createBulkOperationGo, List.length_cons]
    rw [createBulkOperationGo_length ot cat d b rest]

/-- Every entry created by the forEach loop is an individual_item_in_bulk
    entry carrying the batch id both as batchId and parentBatchId, recorded
    with status success. -/
theorem createBulkOperationGo_fields (ot : OperationType) (cat : Category) (d b : String) :
    ∀ (items : List AffectedItem) (s : HState),
      ∀ c ∈ (createBulkOperationGo ot cat d b items s).1,
        c.operationData.action = "individual_item_in_bulk" ∧
        c.operationData.batchId = some b ∧
        c.operationData.parentBatchId = some b ∧
        c.status = .success
  | [], s => by intro c hc; simp [createBulkOperationGo] at hc
  | item :: rest, s => by
    intro c hc
    simp only [createBulkOperationGo, List.mem_cons] at hc
    rcases hc with h | h
    · subst h
      exact ⟨rfl, rfl, rfl, rfl⟩
    · exact createBulkOperationGo_fields ot cat d b rest _ c h

/-- The store after the forEach loop is the created entries (reversed, since
    each save unshifts) in front of the starting store, trimmed once to
    capacity. -/
theorem createBulkOperationGo_state (ot : OperationType) (cat : Category) (d b : String) :
    ∀ (items : List AffectedItem) (s : HState), s.entries.length ≤ MAX_ENTRIES →
      (createBulkOperationGo ot cat d b items s).2.entries =
        ((createBulkOperationGo ot cat d b items s).1.reverse ++ s.entries).take MAX_ENTRIES
  | [], s, h => by
    simp [createBulkOperationGo, List.take_of_length_le h]
  | item :: rest, s, h => by
    have h1 : ((createEntry (childEntryInput ot cat d b item) s).2).entries.length ≤
        MAX_ENTRIES := by
      simp only [createEntry, saveEntry, List.length_take]
      exact min_le_left _ _
    have IH := createBulkOperationGo_state ot cat d b rest
      (createEntry (childEntryInput ot cat d b item) s).2 h1
    simp only [createBulkOperationGo]
    rw [IH]
    show (_ ++ ((_ :: s.entries).take MAX_ENTRIES)).take MAX_ENTRIES = _
    rw [take_append_take]
    simp only [List.reverse_cons, List.append_assoc, List.singleton_append]
    rfl

/-- The entries component returned by createBulkOperation: the aggregate
    entry followed by the per-item entries, under the generated batch id. -/
theorem createBulkOperation_entries (ot : OperationType) (cat : Category) (d : String)
    (items : List AffectedItem) (payload : Option Json) (s : HState) :
    (createBulkOperation ot cat d items payload s).1 =
      ("batch_" ++ toString s.tick,
       mkEntry ("hist_" ++ toString s.tick) ("ts_" ++ toString s.tick)
         (mainEntryInput ot cat d ("batch_" ++ toString s.tick) items payload) ::
       (createBulkOperationGo ot cat d ("batch_" ++ toString s.tick) items
         (createEntry
           (mainEntryInput ot cat d ("batch_" ++ toString s.tick) items payload) s).2).1) :=
  rfl

/-- The store after createBulkOperation is all created entries (reversed) in
    front of the starting store, trimmed once to capacity. -/
theorem createBulkOperation_state (ot : OperationType) (cat : Category) (d : String)
    (items : List AffectedItem) (payload : Option Json) (s : HState) :
    (createBulkOperation ot cat d items payload s).2.entries =
      ((createBulkOperation ot cat d items payload s).1.2.reverse ++ s.entries).take
        MAX_ENTRIES := by
  have h1 : ((createEntry
      (mainEntryInput ot cat d ("batch_" ++ toString s.tick) items payload) s).2).entries.length ≤
      MAX_ENTRIES := by
    simp only [createEntry, saveEntry, List.length_take]
    exact min_le_left _ _
  simp only [createBulkOperation]
  rw [createBulkOperationGo_state ot cat d _ items _ h1]
  show (_ ++ ((_ :: s.entries).take MAX_ENTRIES)).take MAX_ENTRIES = _
  rw [take_append_take]
  simp only [List.reverse_cons, List.append_assoc, List.singleton_append]
  rfl

/-! ## C9 -/

/-- C9: createBulkOperation unconditionally records the aggregate entry and
    every child entry with status success, and writes a bulkOperationSummary
    with totalItems and successfulItems both equal to the item count and
    failedItems 0 (so the recorded successfulItems plus failedItems equals
    totalItems), regardless of what actually happened to the batch — note no
    parameter of createBulkOperation even carries failure information. -/
theorem createBulkOperation_always_success (ot : OperationType) (cat : Category)
    (d : String) (items : List AffectedItem) (payload : Option Json) (s : HState) :
    ∃ main children s2,
      createBulkOperation ot cat d items payload s =
        (("batch_" ++ toString s.tick, main :: children), s2) ∧
      main.status = .success ∧
      main.operationData.action = "bulk_operation" ∧
      children.length = items.length ∧
      (∀ c ∈ children, c.status = .success) ∧
      ∃ md, main.metadata = some md ∧
        md.bulkOperationSummary = some
          { totalItems := items.length, successfulItems := items.length
            failedItems := 0, operationType := ot.toName } ∧
        (∀ summary, md.bulkOperationSummary = some summary →
          summary.successfulItems + summary.failedItems = summary.totalItems) := by
  refine ⟨mkEntry ("hist_" ++ toString s.tick) ("ts_" ++ toString s.tick)
      (mainEntryInput ot cat d ("batch_" ++ toString s.tick) items payload),
    (createBulkOperationGo ot cat d ("batch_" ++ toString s.tick) items
      (createEntry (mainEntryInput ot cat d ("batch_" ++ toString s.tick) items payload) s).2).1,
    (createBulkOperationGo ot cat d ("batch_" ++ toString s.tick) items
      (createEntry (mainEntryInput ot cat d ("batch_" ++ toString s.tick) items payload) s).2).2,
    rfl, rfl, rfl, createBulkOperationGo_length ot cat d _ items _,
    fun c hc => (createBulkOperationGo_fields ot cat d _ items _ c hc).2.2.2,
    _, rfl, rfl, ?_⟩
  intro summary hs
  cases hs
  rfl

/-- Witness for C9 at one concrete item on the empty store. -/
theorem createBulkOperation_always_success_witness :
    ∃ main children s2,
      createBulkOperation .bulk_discount .pricing "d" [oneItem] none ⟨[], 0⟩ =
        (("batch_" ++ toString (0 : Nat), main :: children), s2) ∧
      main.status = .success ∧
      main.operationData.action = "bulk_operation" ∧
      children.length = [oneItem].length ∧
      (∀ c ∈ children, c.status = .success) ∧
      ∃ md, main.metadata = some md ∧
        md.bulkOperationSummary = some
          { totalItems := [oneItem].length, successfulItems := [oneItem].length
            failedItems := 0, operationType := OperationType.bulk_discount.toName } ∧
        (∀ summary, md.bulkOperationSummary = some summary →
          summary.successfulItems + summary.failedItems = summary.totalItems) :=
  createBulkOperation_always_success .bulk_discount .pricing "d" [oneItem] none ⟨[], 0⟩

/-! ## C5 -/

/-- C5 (amended): every child entry of a createBulkOperation call carries both
    batchId and parentBatchId equal to the generated batch id — which is the
    value also stored as the aggregate entry's operationData.batchId, not the
    aggregate entry's own id — and the aggregate entry carries only batchId,
    with no parentBatchId. -/
theorem createBulkOperation_linkage (ot : OperationType) (cat : Category)
    (d : String) (items : List AffectedItem) (payload : Option Json) (s : HState) :
    ∃ main children s2,
      createBulkOperation ot cat d items payload s =
        (("batch_" ++ toString s.tick, main :: children), s2) ∧
      main.operationData.batchId = some ("batch_" ++ toString s.tick) ∧
      main.operationData.parentBatchId = none ∧
      ∀ c ∈ children,
        c.operationData.batchId = some ("batch_" ++ toString s.tick) ∧
        c.operationData.parentBatchId = some ("batch_" ++ toString s.tick) := by
  refine ⟨mkEntry ("hist_" ++ toString s.tick) ("ts_" ++ toString s.tick)
      (mainEntryInput ot cat d ("batch_" ++ toString s.tick) items payload),
    (createBulkOperationGo ot cat d ("batch_" ++ toString s.tick) items
      (createEntry (mainEntryInput ot cat d ("batch_" ++ toString s.tick) items payload) s).2).1,
    (createBulkOperationGo ot cat d ("batch_" ++ toString s.tick) items
      (createEntry (mainEntryInput ot cat d ("batch_" ++ toString s.tick) items payload) s).2).2,
    rfl, rfl, rfl, fun c hc => ?_⟩
  have h := createBulkOperationGo_fields ot cat d _ items _ c hc
  exact ⟨h.2.1, h.2.2.1⟩

/-- Witness for C5 at one concrete item on the empty store. -/
theorem createBulkOperation_linkage_witness :
    ∃ main children s2,
      createBulkOperation .bulk_discount .pricing "d" [oneItem] none ⟨[], 0⟩ =
        (("batch_" ++ toString (0 : Nat), main :: children), s2) ∧
      main.operationData.batchId = some ("batch_" ++ toString (0 : Nat)) ∧
      main.operationData.parentBatchId = none ∧
      ∀ c ∈ children,
        c.operationData.batchId = some ("batch_" ++ toString (0 : Nat)) ∧
        c.operationData.parentBatchId = some ("batch_" ++ toString (0 : Nat)) :=
  createBulkOperation_linkage .bulk_discount .pricing "d" [oneItem] none ⟨[], 0⟩

/-- Counterexample for C5 as stated: in a concrete call the aggregate entry's
    id is hist_0 while the child's parentBatchId is batch_0 — the batch id,
    not the aggregate entry's id (entry ids and batch ids come from disjoint
    hist_ and batch_ prefixed namespaces in the source). -/
theorem createBulkOperation_parentBatchId_not_entry_id :
    (((createBulkOperation .bulk_discount .pricing "d" [oneItem] none ⟨[], 0⟩).1.2[0]?).map
        (fun e => e.id)) = some "hist_0" ∧
    (((createBulkOperation .bulk_discount .pricing "d" [oneItem] none ⟨[], 0⟩).1.2[1]?).map
        (fun c => c.operationData.parentBatchId)) = some (some "batch_0") ∧
    ("batch_0" : String) ≠ "hist_0" := by
  refine ⟨rfl, rfl, by decide⟩

/-! ## C1 -/

/-- Mapping inside each batch and concatenating the batch results is mapping
    over the concatenation of the batches. -/
theorem flatMap_map_eq_flatten_map {α β : Type} (f : α → β) :
    ∀ (bs : List (List α)), bs.flatMap (fun b => b.map f) = bs.flatten.map f
  | [] => rfl
  | b :: bs => by
    simp only [List.flatMap_cons, List.flatten_cons, List.map_append]
    rw [flatMap_map_eq_flatten_map f bs]

/-- The per-batch accumulation of applyDiscount produces exactly one result
    per selected variant, in the original selection order. -/
theorem applyDiscountResults_eq_map (allVariants : List VariantInfo)
    (api : String → ApiOutcome) (sel : List String) :
    applyDiscountResults allVariants api sel =
      sel.map (processVariant allVariants api) := by
  unfold applyDiscountResults
  rw [flatMap_map_eq_flatten_map, makeBatches_flatten]

/-- The foldl of the running tally counts successes and failures. -/
theorem applyDiscountTally_go (rs : List DiscountResult) :
    ∀ (a b : Nat),
      rs.foldl (fun t r => if r.success then (t.1 + 1, t.2) else (t.1, t.2 + 1)) (a, b) =
        (a + rs.countP (fun r => r.success), b + rs.countP (fun r => !r.success)) := by
  induction rs with
  | nil => intro a b; simp
  | cons r rs ih =>
    intro a b
    by_cases h : r.success = true
    · simp [List.countP_cons, h, ih]
      omega
    · simp only [Bool.not_eq_true] at h
      simp [List.countP_cons, h, ih]
      omega

/-- The final tally of applyDiscount is the pair of success and failure
    counts over all per-item results. -/
theorem applyDiscountTally_eq_countP (rs : List DiscountResult) :
    applyDiscountTally rs =
      (rs.countP (fun r => r.success), rs.countP (fun r => !r.success)) := by
  unfold applyDiscountTally
  simpa using applyDiscountTally_go rs 0 0

/-- C1 (amended): in every applyDiscount run each of the N selected variants
    yields exactly one per-item result (a failing item never aborts its
    siblings or the batch), the final tally counts successful equal to the
    number of succeeding items and failed equal to the number of failing
    items, but only the succeeding items produce child HistoryEntries — each
    recorded with status success — while failed items produce no history
    entry at all. -/
theorem applyDiscount_partial_failure (allVariants : List VariantInfo)
    (api : String → ApiOutcome) (dp : ℚ) (sel : List String) (expiry : Option String)
    (s : HState) :
    (applyDiscountResults allVariants api sel).length = sel.length ∧
    applyDiscountTally (applyDiscountResults allVariants api sel) =
      (sel.countP (fun i => (processVariant allVariants api i).success),
       sel.countP (fun i => !(processVariant allVariants api i).success)) ∧
    (applyDiscountChildEntries allVariants api dp sel expiry s).length =
      sel.countP (fun i => (processVariant allVariants api i).success) ∧
    ∀ c ∈ applyDiscountChildEntries allVariants api dp sel expiry s,
      c.status = .success := by
  have hmap := applyDiscountResults_eq_map allVariants api sel
  have hcount : ∀ p : DiscountResult → Bool,
      (applyDiscountResults allVariants api sel).countP p =
        sel.countP (fun i => p (processVariant allVariants api i)) := by
    intro p
    rw [hmap, List.countP_map]
    rfl
  refine ⟨by rw [hmap]; exact List.length_map _ _, ?_, ?_, ?_⟩
  · rw [applyDiscountTally_eq_countP, hcount, hcount]
  · unfold applyDiscountChildEntries applyDiscountHistory
    by_cases hpos :
        ((applyDiscountResults allVariants api sel).filter (fun r => r.success)).length > 0
    · simp only [List.length_map, hpos, if_pos, createBulkOperation_entries]
      simp only [List.drop_succ_cons, List.drop_zero]
      rw [createBulkOperationGo_length]
      rw [List.length_map, ← List.countP_eq_length_filter, hcount]
    · have hcond : ¬((((applyDiscountResults allVariants api sel).filter
          (fun r => r.success)).map (toAffectedItem allVariants dp)).length > 0) := by
        rw [List.length_map]; exact hpos
      rw [if_neg hcond]
      have h0 : ((applyDiscountResults allVariants api sel).filter
          (fun r => r.success)).length = 0 := by omega
      rw [← List.countP_eq_length_filter, hcount] at h0
      exact h0.symm
  · intro c hc
    unfold applyDiscountChildEntries applyDiscountHistory at hc
    by_cases hpos :
        ((applyDiscountResults allVariants api sel).filter (fun r => r.success)).length > 0
    · simp only [List.length_map, hpos, if_pos, createBulkOperation_entries] at hc
      simp only [List.drop_succ_cons, List.drop_zero] at hc
      exact (createBulkOperationGo_fields _ _ _ _ _ _ c hc).2.2.2
    · have hcond : ¬((((applyDiscountResults allVariants api sel).filter
          (fun r => r.success)).map (toAffectedItem allVariants dp)).length > 0) := by
        rw [List.length_map]; exact hpos
      rw [if_neg hcond] at hc
      simp at hc

/-- Witness for C1 on five concrete variants with an all-success API. -/
theorem applyDiscount_partial_failure_witness :
    (applyDiscountResults fiveVariants apiAllOk ["v1", "v2", "v3", "v4", "v5"]).length =
      (["v1", "v2", "v3", "v4", "v5"] : List String).length ∧
    applyDiscountTally (applyDiscountResults fiveVariants apiAllOk
        ["v1", "v2", "v3", "v4", "v5"]) =
      ((["v1", "v2", "v3", "v4", "v5"] : List String).countP
        (fun i => (processVariant fiveVariants apiAllOk i).success),
       (["v1", "v2", "v3", "v4", "v5"] : List String).countP
        (fun i => !(processVariant fiveVariants apiAllOk i).success)) ∧
    (applyDiscountChildEntries fiveVariants apiAllOk 10
        ["v1", "v2", "v3", "v4", "v5"] none ⟨[], 0⟩).length =
      (["v1", "v2", "v3", "v4", "v5"] : List String).countP
        (fun i => (processVariant fiveVariants apiAllOk i).success) ∧
    ∀ c ∈ applyDiscountChildEntries fiveVariants apiAllOk 10
        ["v1", "v2", "v3", "v4", "v5"] none ⟨[], 0⟩,
      c.status = .success :=
  applyDiscount_partial_failure fiveVariants apiAllOk 10 ["v1", "v2", "v3", "v4", "v5"]
    none ⟨[], 0⟩

/-- Counterexample for C1 as stated: in a batch of five where item 3 always
    fails, the tally is 4 successful and 1 failed and no sibling is aborted,
    but only 4 child HistoryEntries are created — not 5 — and none of them is
    an error-status entry for the failed item. -/
theorem applyDiscount_missing_failed_children :
    applyDiscountTally (applyDiscountResults fiveVariants apiFailThird
      ["v1", "v2", "v3", "v4", "v5"]) = (4, 1) ∧
    (applyDiscountChildEntries fiveVariants apiFailThird 10
      ["v1", "v2", "v3", "v4", "v5"] none ⟨[], 0⟩).length = 4 ∧
    (applyDiscountChildEntries fiveVariants apiFailThird 10
      ["v1", "v2", "v3", "v4", "v5"] none ⟨[], 0⟩).length ≠
      (["v1", "v2", "v3", "v4", "v5"] : List String).length ∧
    (applyDiscountChildEntries fiveVariants apiFailThird 10
      ["v1", "v2", "v3", "v4", "v5"] none ⟨[], 0⟩).countP
      (fun c => c.status == EntryStatus.error) = 0 := by
  have hlen : (applyDiscountChildEntries fiveVariants apiFailThird 10
      ["v1", "v2", "v3", "v4", "v5"] none ⟨[], 0⟩).length = 4 := rfl
  refine ⟨rfl, hlen, ?_, rfl⟩
  rw [hlen]
  decide

/-! ## C8 -/

/-- A batchId-only filter reduces to the single batchId predicate of
    getFilteredEntries. -/
theorem getFilteredEntries_batchId (B : String) (s : HState) :
    getFilteredEntries ⟨none, none, none, none, none, some B⟩ s =
      s.entries.filter (fun e =>
        e.operationData.batchId == some B || e.operationData.parentBatchId == some B) :=
  rfl

/-- C8 (amended): if a batch of N items is created by createBulkOperation on
    a store that has room for all N + 1 new entries (otherwise the oldest
    entries, the aggregate included, can be evicted by the capacity trim, see
    the counterexample) and no pre-existing entry carries the generated batch
    id, then filtering the history by that batch id returns exactly N + 1
    entries: exactly 1 aggregate (action bulk_operation) and exactly N
    children (action individual_item_in_bulk), and nothing else. -/
theorem queryHistory_batch_linkage (ot : OperationType) (cat : Category) (d : String)
    (items : List AffectedItem) (payload : Option Json) (s : HState)
    (hcap : s.entries.length + items.length + 1 ≤ MAX_ENTRIES)
    (hother : ∀ e ∈ s.entries,
      e.operationData.batchId ≠ some ("batch_" ++ toString s.tick) ∧
      e.operationData.parentBatchId ≠ some ("batch_" ++ toString s.tick)) :
    (getFilteredEntries ⟨none, none, none, none, none,
        some ("batch_" ++ toString s.tick)⟩
      (createBulkOperation ot cat d items payload s).2).length = items.length + 1 ∧
    (getFilteredEntries ⟨none, none, none, none, none,
        some ("batch_" ++ toString s.tick)⟩
      (createBulkOperation ot cat d items payload s).2).countP
      (fun e => e.operationData.action == "bulk_operation") = 1 ∧
    (getFilteredEntries ⟨none, none, none, none, none,
        some ("batch_" ++ toString s.tick)⟩
      (createBulkOperation ot cat d items payload s).2).countP
      (fun e => e.operationData.action == "individual_item_in_bulk") = items.length := by
  have hcl : (createBulkOperationGo ot cat d ("batch_" ++ toString s.tick) items
      (createEntry (mainEntryInput ot cat d ("batch_" ++ toString s.tick) items payload)
        s).2).1.length = items.length :=
    createBulkOperationGo_length ot cat d _ items _
  have hentries : (createBulkOperation ot cat d items payload s).2.entries =
      (createBulkOperationGo ot cat d ("batch_" ++ toString s.tick) items
        (createEntry (mainEntryInput ot cat d ("batch_" ++ toString s.tick) items payload)
          s).2).1.reverse ++
      mkEntry ("hist_" ++ toString s.tick) ("ts_" ++ toString s.tick)
        (mainEntryInput ot cat d ("batch_" ++ toString s.tick) items payload) ::
      s.entries := by
    rw [createBulkOperation_state]
    have h12 : (createBulkOperation ot cat d items payload s).1.2 =
        mkEntry ("hist_" ++ toString s.tick) ("ts_" ++ toString s.tick)
          (mainEntryInput ot cat d ("batch_" ++ toString s.tick) items payload) ::
        (createBulkOperationGo ot cat d ("batch_" ++ toString s.tick) items
          (createEntry (mainEntryInput ot cat d ("batch_" ++ toString s.tick) items payload)
            s).2).1 := rfl
    rw [h12, List.reverse_cons, List.append_assoc, List.singleton_append]
    refine List.take_of_length_le ?_
    simp only [List.length_append, List.length_reverse, List.length_cons, hcl]
    omega
  have hq : getFilteredEntries ⟨none, none, none, none, none,
      some ("batch_" ++ toString s.tick)⟩
      (createBulkOperation ot cat d items payload s).2 =
      (createBulkOperationGo ot cat d ("batch_" ++ toString s.tick) items
        (createEntry (mainEntryInput ot cat d ("batch_" ++ toString s.tick) items payload)
          s).2).1.reverse ++
      [mkEntry ("hist_" ++ toString s.tick) ("ts_" ++ toString s.tick)
        (mainEntryInput ot cat d ("batch_" ++ toString s.tick) items payload)] := by
    rw [getFilteredEntries_batchId, hentries, List.filter_append, List.filter_cons]
    have hmainp : ((mkEntry ("hist_" ++ toString s.tick) ("ts_" ++ toString s.tick)
        (mainEntryInput ot cat d ("batch_" ++ toString s.tick) items
          payload)).operationData.batchId == some ("batch_" ++ toString s.tick) ||
        (mkEntry ("hist_" ++ toString s.tick) ("ts_" ++ toString s.tick)
          (mainEntryInput ot cat d ("batch_" ++ toString s.tick) items
            payload)).operationData.parentBatchId ==
          some ("batch_" ++ toString s.tick)) = true := by
      simp [mkEntry, mainEntryInput]
    rw [if_pos hmainp]
    have hchild : (createBulkOperationGo ot cat d ("batch_" ++ toString s.tick) items
        (createEntry (mainEntryInput ot cat d ("batch_" ++ toString s.tick) items payload)
          s).2).1.reverse.filter (fun e =>
          e.operationData.batchId == some ("batch_" ++ toString s.tick) ||
          e.operationData.parentBatchId == some ("batch_" ++ toString s.tick)) =
        (createBulkOperationGo ot cat d ("batch_" ++ toString s.tick) items
          (createEntry (mainEntryInput ot cat d ("batch_" ++ toString s.tick) items payload)
            s).2).1.reverse := by
      refine List.filter_eq_self.mpr (fun c hc => ?_)
      have hf := createBulkOperationGo_fields ot cat d _ items _ c (List.mem_reverse.mp hc)
      simp [hf.2.1]
    have hrest : s.entries.filter (fun e =>
        e.operationData.batchId == some ("batch_" ++ toString s.tick) ||
        e.operationData.parentBatchId == some ("batch_" ++ toString s.tick)) = [] := by
      refine List.filter_eq_nil_iff.mpr (fun e he => ?_)
      have hne := hother e he
      simp only [Bool.or_eq_true, beq_iff_eq]
      rintro (h | h)
      · exact hne.1 h
      · exact hne.2 h
    rw [hchild, hrest]
  rw [hq]
  have hmem := createBulkOperationGo_fields ot cat d ("batch_" ++ toString s.tick) items
    (createEntry (mainEntryInput ot cat d ("batch_" ++ toString s.tick) items payload) s).2
  refine ⟨?_, ?_, ?_⟩
  · simp [List.length_append, List.length_reverse, hcl]
  · rw [List.countP_append]
    have h0 : (createBulkOperationGo ot cat d ("batch_" ++ toString s.tick) items
        (createEntry (mainEntryInput ot cat d ("batch_" ++ toString s.tick) items payload)
          s).2).1.reverse.countP
        (fun e => e.operationData.action == "bulk_operation") = 0 := by
      refine List.countP_eq_zero.mpr (fun c hc => ?_)
      have ha := (hmem c (List.mem_reverse.mp hc)).1
      simp [ha]
    rw [h0]
    rfl
  · rw [List.countP_append]
    have hall : (createBulkOperationGo ot cat d ("batch_" ++ toString s.tick) items
        (createEntry (mainEntryInput ot cat d ("batch_" ++ toString s.tick) items payload)
          s).2).1.reverse.countP
        (fun e => e.operationData.action == "individual_item_in_bulk") =
        items.length := by
      rw [List.countP_eq_length.mpr, List.length_reverse, hcl]
      intro c hc
      have ha := (hmem c (List.mem_reverse.mp hc)).1
      simp [ha]
    rw [hall]
    rfl

/-- Witness for C8: one item on the empty store. -/
theorem queryHistory_batch_linkage_witness :
    ((HState.mk [] 0).entries.length + [oneItem].length + 1 ≤ MAX_ENTRIES) ∧
    ((getFilteredEntries ⟨none, none, none, none, none,
        some ("batch_" ++ toString (HState.mk [] 0).tick)⟩
      (createBulkOperation .bulk_discount .pricing "d" [oneItem] none
        (HState.mk [] 0)).2).length = [oneItem].length + 1 ∧
    (getFilteredEntries ⟨none, none, none, none, none,
        some ("batch_" ++ toString (HState.mk [] 0).tick)⟩
      (createBulkOperation .bulk_discount .pricing "d" [oneItem] none
        (HState.mk [] 0)).2).countP
      (fun e => e.operationData.action == "bulk_operation") = 1 ∧
    (getFilteredEntries ⟨none, none, none, none, none,
        some ("batch_" ++ toString (HState.mk [] 0).tick)⟩
      (createBulkOperation .bulk_discount .pricing "d" [oneItem] none
        (HState.mk [] 0)).2).countP
      (fun e => e.operationData.action == "individual_item_in_bulk") = [oneItem].length) :=
  ⟨by decide,
   queryHistory_batch_linkage .bulk_discount .pricing "d" [oneItem] none (HState.mk [] 0)
     (by decide) (fun e he => absurd he (List.not_mem_nil e))⟩

/-- Counterexample for C8 as stated: a batch of 5000 items on the empty store
    fills the store to capacity and the per-item saves evict the aggregate
    entry itself, so the batchId query returns the 5000 children and zero
    aggregate entries, not exactly one. -/
theorem queryHistory_batch_aggregate_evicted :
    (getFilteredEntries ⟨none, none, none, none, none, some "batch_0"⟩
      (createBulkOperation .bulk_discount .pricing "d" (List.replicate 5000 oneItem)
        none (HState.mk [] 0)).2).countP
      (fun e => e.operationData.action == "bulk_operation") = 0 ∧
    (getFilteredEntries ⟨none, none, none, none, none, some "batch_0"⟩
      (createBulkOperation .bulk_discount .pricing "d" (List.replicate 5000 oneItem)
        none (HState.mk [] 0)).2).length = 5000 := by
  have hB : "batch_" ++ toString (HState.mk [] 0).tick = "batch_0" := rfl
  have hcl : (createBulkOperationGo .bulk_discount .pricing "d"
      ("batch_" ++ toString (HState.mk [] 0).tick) (List.replicate 5000 oneItem)
      (createEntry (mainEntryInput .bulk_discount .pricing "d"
        ("batch_" ++ toString (HState.mk [] 0).tick) (List.replicate 5000 oneItem) none)
        (HState.mk [] 0)).2).1.length = 5000 := by
    rw [createBulkOperationGo_length, List.length_replicate]
  have hentries : (createBulkOperation .bulk_discount .pricing "d"
      (List.replicate 5000 oneItem) none (HState.mk [] 0)).2.entries =
      (createBulkOperationGo .bulk_discount .pricing "d"
        ("batch_" ++ toString (HState.mk [] 0).tick) (List.replicate 5000 oneItem)
        (createEntry (mainEntryInput .bulk_discount .pricing "d"
          ("batch_" ++ toString (HState.mk [] 0).tick) (List.replicate 5000 oneItem) none)
          (HState.mk [] 0)).2).1.reverse := by
    rw [createBulkOperation_state]
    have h12 : (createBulkOperation .bulk_discount .pricing "d"
        (List.replicate 5000 oneItem) none (HState.mk [] 0)).1.2 =
        mkEntry ("hist_" ++ toString (HState.mk [] 0).tick)
          ("ts_" ++ toString (HState.mk [] 0).tick)
          (mainEntryInput .bulk_discount .pricing "d"
            ("batch_" ++ toString (HState.mk [] 0).tick)
            (List.replicate 5000 oneItem) none) ::
        (createBulkOperationGo .bulk_discount .pricing "d"
          ("batch_" ++ toString (HState.mk [] 0).tick) (List.replicate 5000 oneItem)
          (createEntry (mainEntryInput .bulk_discount .pricing "d"
            ("batch_" ++ toString (HState.mk [] 0).tick)
            (List.replicate 5000 oneItem) none)
            (HState.mk [] 0)).2).1 := rfl
    rw [h12, List.reverse_cons]
    show ((_ ++ _) ++ []).take MAX_ENTRIES = _
    rw [List.append_nil]
    refine List.take_left' ?_
    rw [List.length_reverse, hcl]
    rfl
  have hq : getFilteredEntries ⟨none, none, none, none, none, some "batch_0"⟩
      (createBulkOperation .bulk_discount .pricing "d" (List.replicate 5000 oneItem)
        none (HState.mk [] 0)).2 =
      (createBulkOperationGo .bulk_discount .pricing "d"
        ("batch_" ++ toString (HState.mk [] 0).tick) (List.replicate 5000 oneItem)
        (createEntry (mainEntryInput .bulk_discount .pricing "d"
          ("batch_" ++ toString (HState.mk [] 0).tick) (List.replicate 5000 oneItem) none)
          (HState.mk [] 0)).2).1.reverse := by
    rw [getFilteredEntries_batchId, hentries]
    refine List.filter_eq_self.mpr (fun c hc => ?_)
    have hf := createBulkOperationGo_fields .bulk_discount .pricing "d"
      ("batch_" ++ toString (HState.mk [] 0).tick) (List.replicate 5000 oneItem)
      (createEntry (mainEntryInput .bulk_discount .pricing "d"
        ("batch_" ++ toString (HState.mk [] 0).tick) (List.replicate 5000 oneItem) none)
        (HState.mk [] 0)).2 c (List.mem_reverse.mp hc)
    have hb := hf.2.1
    rw [hB] at hb
    simp [hb]
  rw [hq]
  constructor
  · refine List.countP_eq_zero.mpr (fun c hc => ?_)
    have ha := (createBulkOperationGo_fields .bulk_discount .pricing "d"
      ("batch_" ++ toString (HState.mk [] 0).tick) (List.replicate 5000 oneItem)
      (createEntry (mainEntryInput .bulk_discount .pricing "d"
        ("batch_" ++ toString (HState.mk [] 0).tick) (List.replicate 5000 oneItem) none)
        (HState.mk [] 0)).2 c (List.mem_reverse.mp hc)).1
    simp [ha]
  · rw [List.length_reverse]
    exact hcl

/-! ## C4 -/

/-- C4: for every existing entry with canRollback, when the inverse mutation
    succeeds, rollbackOperation returns that success result and appends
    exactly one new HistoryEntry — same operationType, action rollback,
    oldValues and newValues swapped from the source entry, and its own
    rollbackData.canRollback false so the rollback entry cannot itself be
    rolled back. -/
theorem rollbackOperation_success_appends (fetchOk : UniversalHistoryEntry → Bool)
    (entryId : String) (s : HState) (entry : UniversalHistoryEntry) (rd : RollbackData)
    (res : RollbackResult)
    (hfind : (getAllEntries s).find? (fun e => e.id == entryId) = some entry)
    (hrd : entry.rollbackData = some rd)
    (hcan : rd.canRollback = true)
    (hexec : executeRollback fetchOk s entry = .ok res)
    (hsucc : res.success = true) :
    ∃ nb,
      rollbackOperation fetchOk entryId s =
        (res, { entries := nb :: s.entries.take (MAX_ENTRIES - 1), tick := s.tick + 1 }) ∧
      nb.operationType = entry.operationType ∧
      nb.operationData.action = "rollback" ∧
      nb.operationData.oldValues = entry.operationData.newValues ∧
      nb.operationData.newValues = entry.operationData.oldValues ∧
      nb.rollbackData = some
        { canRollback := false, rollbackType := .api_call
          rollbackPayload := none, dependencies := none } := by
  refine ⟨mkEntry ("hist_" ++ toString s.tick) ("ts_" ++ toString s.tick)
      (rollbackEntryInput entry entryId), ?_, rfl, rfl, rfl, rfl, rfl⟩
  have hro : rollbackOperation fetchOk entryId s =
      (res, (createEntry (rollbackEntryInput entry entryId) s).2) := by
    unfold rollbackOperation
    rw [hfind]
    simp only [hrd, hcan, if_true, hexec, hsucc]
  rw [hro]
  simp only [createEntry, saveEntry]
  rw [take_cons_of_pos (by decide : 0 < MAX_ENTRIES)]

/-- Witness for C4: rolling back a concrete rollback-able product_update
    entry on a one-entry store with a succeeding remote call. -/
theorem rollbackOperation_success_appends_witness :
    ((getAllEntries (HState.mk [rbEntry] 0)).find? (fun e => e.id == "e0") = some rbEntry) ∧
    (rbEntry.rollbackData = some
      { canRollback := true, rollbackType := .api_call
        rollbackPayload := none, dependencies := none }) ∧
    (executeRollback (fun _ => true) (HState.mk [rbEntry] 0) rbEntry =
      .ok { success := true, message := "Product successfully rolled back"
            affectedEntries := ["e0"], errors := none }) ∧
    ∃ nb,
      rollbackOperation (fun _ => true) "e0" (HState.mk [rbEntry] 0) =
        ({ success := true, message := "Product successfully rolled back"
           affectedEntries := ["e0"], errors := none },
         { entries := nb :: (HState.mk [rbEntry] 0).entries.take (MAX_ENTRIES - 1)
           tick := (HState.mk [rbEntry] 0).tick + 1 }) ∧
      nb.operationType = rbEntry.operationType ∧
      nb.operationData.action = "rollback" ∧
      nb.operationData.oldValues = rbEntry.operationData.newValues ∧
      nb.operationData.newValues = rbEntry.operationData.oldValues ∧
      nb.rollbackData = some
        { canRollback := false, rollbackType := .api_call
          rollbackPayload := none, dependencies := none } :=
  ⟨rfl, rfl, rfl,
   rollbackOperation_success_appends (fun _ => true) "e0" (HState.mk [rbEntry] 0) rbEntry
     { canRollback := true, rollbackType := .api_call
       rollbackPayload := none, dependencies := none }
     { success := true, message := "Product successfully rolled back"
       affectedEntries := ["e0"], errors := none }
     rfl rfl rfl rfl rfl⟩

/-! ## C6 -/

/-- C6 (amended): on a store strictly below capacity, a rollback call —
    whether it succeeds or fails — never deletes or mutates any pre-existing
    entry: the resulting entry list is either exactly the old list or the old
    list with one new entry prepended.  At capacity the appending save evicts
    the oldest entry, see the counterexample. -/
theorem rollbackOperation_no_mutation (fetchOk : UniversalHistoryEntry → Bool)
    (entryId : String) (s : HState) (h : s.entries.length < MAX_ENTRIES) :
    (rollbackOperation fetchOk entryId s).2.entries = s.entries ∨
    ∃ nb, (rollbackOperation fetchOk entryId s).2.entries = nb :: s.entries := by
  unfold rollbackOperation
  split
  · left; rfl
  · split
    · left; rfl
    · split
      · split
        · split
          · rename_i entry _ _ _ _ _ _ _ _ _
            right
            refine ⟨mkEntry ("hist_" ++ toString s.tick) ("ts_" ++ toString s.tick)
              (rollbackEntryInput entry entryId), ?_⟩
            simp only [createEntry, saveEntry]
            refine List.take_of_length_le ?_
            simp only [List.length_cons]
            omega
          · left; rfl
        · left; rfl
      · left; rfl

/-- Witness for C6: a failing rollback (missing id) and a succeeding rollback
    on a small store, both leaving every pre-existing entry in place. -/
theorem rollbackOperation_no_mutation_witness :
    ((HState.mk [rbEntry] 0).entries.length < MAX_ENTRIES) ∧
    ((rollbackOperation (fun _ => true) "missing" (HState.mk [rbEntry] 0)).2.entries =
        (HState.mk [rbEntry] 0).entries ∨
      ∃ nb, (rollbackOperation (fun _ => true) "missing"
          (HState.mk [rbEntry] 0)).2.entries = nb :: (HState.mk [rbEntry] 0).entries) ∧
    ((rollbackOperation (fun _ => true) "e0" (HState.mk [rbEntry] 0)).2.entries =
        (HState.mk [rbEntry] 0).entries ∨
      ∃ nb, (rollbackOperation (fun _ => true) "e0"
          (HState.mk [rbEntry] 0)).2.entries = nb :: (HState.mk [rbEntry] 0).entries) :=
  ⟨by decide,
   rollbackOperation_no_mutation (fun _ => true) "missing" (HState.mk [rbEntry] 0)
     (by decide),
   rollbackOperation_no_mutation (fun _ => true) "e0" (HState.mk [rbEntry] 0)
     (by decide)⟩

/-- Counterexample for C6 as stated: on a store already holding exactly
    MAX_ENTRIES entries, a successful rollback appends its new entry and the
    capacity trim silently deletes the oldest pre-existing entry (id v). -/
theorem rollbackOperation_evicts_at_capacity :
    bigStore.entries.length = MAX_ENTRIES ∧
    (rollbackOperation (fun _ => true) "e0" bigStore).1.success = true ∧
    bigStore.entries.any (fun e => e.id == "v") = true ∧
    (rollbackOperation (fun _ => true) "e0" bigStore).2.entries.any
      (fun e => e.id == "v") = false := by
  have hro : rollbackOperation (fun _ => true) "e0" bigStore =
      ({ success := true, message := "Product successfully rolled back"
         affectedEntries := ["e0"], errors := none },
       (createEntry (rollbackEntryInput rbEntry "e0") bigStore).2) := by
    unfold rollbackOperation
    have hfind : (getAllEntries bigStore).find? (fun e => e.id == "e0") = some rbEntry :=
      rfl
    rw [hfind]
    simp only [show rbEntry.rollbackData = some
        { canRollback := true, rollbackType := .api_call
          rollbackPayload := none, dependencies := none } from rfl,
      show executeRollback (fun _ => true) bigStore rbEntry = Except.ok
        { success := true, message := "Product successfully rolled back"
          affectedEntries := ["e0"], errors := none } from rfl,
      if_true]
  refine ⟨?_, ?_, ?_, ?_⟩
  · show (rbEntry :: (List.replicate 4998 (baseEntry "d") ++ [baseEntry "v"])).length =
      MAX_ENTRIES
    rw [List.length_cons, List.length_append, List.length_replicate]
    decide
  · rw [hro]
  · refine List.any_eq_true.mpr ⟨baseEntry "v", ?_, rfl⟩
    show baseEntry "v" ∈ rbEntry :: (List.replicate 4998 (baseEntry "d") ++ [baseEntry "v"])
    exact List.mem_cons_of_mem _ (List.mem_append_right _ (List.mem_singleton_self _))
  · rw [hro]
    simp only [createEntry, saveEntry]
    have hstep : ((mkEntry ("hist_" ++ toString bigStore.tick)
        ("ts_" ++ toString bigStore.tick) (rollbackEntryInput rbEntry "e0")) ::
        bigStore.entries).take MAX_ENTRIES =
        mkEntry ("hist_" ++ toString bigStore.tick) ("ts_" ++ toString bigStore.tick)
          (rollbackEntryInput rbEntry "e0") :: rbEntry ::
        List.replicate 4998 (baseEntry "d") := by
      rw [take_cons_of_pos (by decide : 0 < MAX_ENTRIES)]
      show _ :: (rbEntry :: (List.replicate 4998 (baseEntry "d") ++ [baseEntry "v"])).take
        (MAX_ENTRIES - 1) = _
      rw [take_cons_of_pos (by decide : 0 < MAX_ENTRIES - 1)]
      rw [show MAX_ENTRIES - 1 - 1 = 4998 from rfl]
      rw [List.take_left' (List.length_replicate 4998 (baseEntry "d"))]
    rw [hstep]
    refine List.any_eq_false.mpr ?_
    intro e he
    rcases List.mem_cons.mp he with h1 | h1
    · subst h1; decide
    · rcases List.mem_cons.mp h1 with h2 | h2
      · subst h2; decide
      · rw [List.eq_of_mem_replicate h2]; decide

/-! ## C7 -/

/-- C7: rollback of a missing entry, of an entry that cannot be rolled back
    (no rollbackData or canRollback false), or of a canRollback entry with the
    unimplemented file_restore type, returns a RollbackResult with success
    false (rollbackOperation is total — every throw is caught) and leaves the
    store, tick included, completely unchanged: no rollback entry is
    appended. -/
theorem rollbackOperation_ineligible (fetchOk : UniversalHistoryEntry → Bool)
    (entryId : String) (s : HState)
    (h : ∀ entry, (getAllEntries s).find? (fun e => e.id == entryId) = some entry →
      entry.rollbackData = none ∨
      ∃ rd, entry.rollbackData = some rd ∧
        (rd.canRollback = false ∨ rd.rollbackType = .file_restore)) :
    (rollbackOperation fetchOk entryId s).1.success = false ∧
    (rollbackOperation fetchOk entryId s).2 = s := by
  unfold rollbackOperation
  split
  · exact ⟨rfl, rfl⟩
  · rename_i entry hfind
    split
    · exact ⟨rfl, rfl⟩
    · rename_i rd hrd
      split
      · rename_i hcan
        rcases h entry hfind with hnone | ⟨rd', hrd', hbad⟩
        · rw [hrd] at hnone
          exact absurd hnone (by simp)
        · rw [hrd] at hrd'
          injection hrd' with hrdeq
          subst hrdeq
          rcases hbad with hcanf | hfr
          · rw [hcan] at hcanf
            exact absurd hcanf (by simp)
          · have hex : executeRollback fetchOk s entry =
                .error "File rollback not yet implemented" := by
              unfold executeRollback
              simp only [hrd, hfr]
              rfl
            split
            · rename_i r heqr
              rw [hex] at heqr
              exact absurd heqr (by simp)
            · exact ⟨rfl, rfl⟩
      · exact ⟨rfl, rfl⟩

/-- Witness for C7: a missing id, a canRollback false entry, and a
    file_restore entry, on concrete one-entry stores. -/
theorem rollbackOperation_ineligible_witness :
    ((rollbackOperation (fun _ => true) "x" (HState.mk [] 0)).1.success = false ∧
     (rollbackOperation (fun _ => true) "x" (HState.mk [] 0)).2 = HState.mk [] 0) ∧
    ((rollbackOperation (fun _ => true) "e1" (HState.mk [nonRbEntry] 0)).1.success = false ∧
     (rollbackOperation (fun _ => true) "e1" (HState.mk [nonRbEntry] 0)).2 =
       HState.mk [nonRbEntry] 0) ∧
    ((rollbackOperation (fun _ => true) "e2" (HState.mk [frEntry] 0)).1.success = false ∧
     (rollbackOperation (fun _ => true) "e2" (HState.mk [frEntry] 0)).2 =
       HState.mk [frEntry] 0) :=
  ⟨rollbackOperation_ineligible (fun _ => true) "x" (HState.mk [] 0)
     (fun e he => by simp [getAllEntries] at he),
   rollbackOperation_ineligible (fun _ => true) "e1" (HState.mk [nonRbEntry] 0)
     (fun e he => by
       have he' : some nonRbEntry = some e := he
       injection he' with h
       subst h
       exact Or.inr ⟨_, rfl, Or.inl rfl⟩),
   rollbackOperation_ineligible (fun _ => true) "e2" (HState.mk [frEntry] 0)
     (fun e he => by
       have he' : some frEntry = some e := he
       injection he' with h
       subst h
       exact Or.inr ⟨_, rfl, Or.inr rfl⟩)⟩

/-! ## C10 -/

/-- C10: importHistory returns true exactly when the input parses as a JSON
    array; on true the stored value is the input string verbatim — every
    element kept, nothing validated or trimmed, however long the array is —
    and on false the storage is unchanged; the 5000-entry capacity is only
    re-enforced by the next saveEntry append, whose result always has length
    min(MAX_ENTRIES, old length + 1). -/
theorem importHistory_spec (parse : String → Except String Json) (jsonData : String)
    (storage : Option String) :
    ((importHistory parse jsonData storage).1 = true ↔
      ∃ l, parse jsonData = .ok (.arr l)) ∧
    (∀ l, parse jsonData = .ok (.arr l) →
      (importHistory parse jsonData storage).2 = some jsonData) ∧
    ((importHistory parse jsonData storage).1 = false →
      (importHistory parse jsonData storage).2 = storage) ∧
    (∀ (e : UniversalHistoryEntry) (entries : List UniversalHistoryEntry),
      (saveEntry e entries).length = min MAX_ENTRIES (entries.length + 1)) := by
  refine ⟨?_, ?_, ?_, ?_⟩
  · unfold importHistory
    cases hp : parse jsonData with
    | error msg => simp
    | ok j => cases j <;> simp
  · intro l hl
    unfold importHistory
    rw [hl]
  · unfold importHistory
    cases hp : parse jsonData with
    | error msg => intro _; rfl
    | ok j =>
      cases j <;> intro hfalse <;> first | rfl | exact absurd hfalse (by simp)
  · intro e entries
    simp [saveEntry, List.length_take, List.length_cons]

/-- Witness for C10: a concrete parse oracle, one array input, one non-array
    input and one unparsable input. -/
theorem importHistory_spec_witness :
    (importHistory parseTwo "[1]" (some "old") = (true, some "[1]")) ∧
    (importHistory parseTwo "0" (some "old") = (false, some "old")) ∧
    (importHistory parseTwo "zzz" (some "old") = (false, some "old")) ∧
    (((importHistory parseTwo "[1]" (some "old")).1 = true ↔
      ∃ l, parseTwo "[1]" = .ok (.arr l)) ∧
    (∀ l, parseTwo "[1]" = .ok (.arr l) →
      (importHistory parseTwo "[1]" (some "old")).2 = some "[1]") ∧
    ((importHistory parseTwo "[1]" (some "old")).1 = false →
      (importHistory parseTwo "[1]" (some "old")).2 = some "old") ∧
    (∀ (e : UniversalHistoryEntry) (entries : List UniversalHistoryEntry),
      (saveEntry e entries).length = min MAX_ENTRIES (entries.length + 1))) :=
  ⟨rfl, rfl, rfl, importHistory_spec parseTwo "[1]" (some "old")⟩
